import Mathlib

/-!
Shallow embedding of the VMail subscription-reconciliation and quota core:
the Razorpay webhook route, the verify-payment route, and the chat route's
daily quota gate, together with the Prisma store operations they issue.

The database is modelled as a list of rows; `findUnique` / `findFirst` is
first-match lookup on the key column, `update` rewrites the matching rows in
place, `create` appends, and `upsert` is update-if-found-else-create.
Store-managed columns never read or written by the handlers (the internal
`id`, `createdAt`, `updatedAt`, `razorpayCustomerId`) are omitted from the
row types.  External collaborators are passed as function parameters: the
HMAC-SHA256 digest (`hmac`), JSON parsing (`parseJson`), the wall clock
(`nowMs`), and store-write failure injection (`dbFail`).
-/

namespace VMail

/-- A row of the `RazorpaySubscription` table (Prisma schema in the
migration file): `userId`, `razorpayPlanId` and `status` are nullable
columns; `currentPeriodEnd` is a non-null timestamp, modelled as epoch
milliseconds. -/
structure SubRecord where
  userId : Option String
  razorpaySubscriptionId : String
  razorpayPlanId : Option String
  status : Option String
  currentPeriodEnd : Int
deriving DecidableEq, Repr

/-- A value found at `notes.userId` in a webhook subscription entity:
either a JSON string or some non-string JSON value.  The handler's guard is
`if (!userId || typeof userId !== "string") throw`: it rejects an absent
value, a non-string value, and — via `!userId` falsiness — the empty
string. -/
inductive NoteVal where
  | str (s : String)
  | nonString
deriving DecidableEq, Repr

/-- The fields of a `Razorpay.Subscription` entity read by the webhook
handler: `id`, `plan_id`, `status`, `current_end` (epoch seconds) and the
optional `notes.userId`. -/
structure SubEntity where
  id : String
  plan_id : Option String
  status : String
  current_end : Int
  notes_userId : Option NoteVal
deriving DecidableEq, Repr

/-- The parsed `RazorpayWebhookPayload`: the `event` string and the optional
`payload.subscription.entity`. -/
structure WebhookPayload where
  event : String
  subscription : Option SubEntity
deriving DecidableEq, Repr

/-- `db.razorpaySubscription.findUnique` / `findFirst` keyed on
`razorpaySubscriptionId`: first row whose key matches. -/
def findByExternalId : List SubRecord → String → Option SubRecord
  | [], _ => none
  | r :: rs, k =>
    if r.razorpaySubscriptionId = k then some r else findByExternalId rs k

/-- `db.razorpaySubscription.update` keyed on `razorpaySubscriptionId`:
rewrite the matching rows in place (under the unique index at most one row
matches). -/
def updateRecord : List SubRecord → String → (SubRecord → SubRecord) → List SubRecord
  | [], _, _ => []
  | r :: rs, k, f =>
    (if r.razorpaySubscriptionId = k then f r else r) :: updateRecord rs k f

/-- The `data` argument of the activated branch's `create` call: full row
from the event entity, `currentPeriodEnd` from `current_end` seconds. -/
def activatedCreateRow (sub : SubEntity) (userId : String) : SubRecord :=
  { userId := some userId,
    razorpaySubscriptionId := sub.id,
    razorpayPlanId := sub.plan_id,
    status := some sub.status,
    currentPeriodEnd := sub.current_end * 1000 }

/-- The `data` argument of the activated branch's `update` call: sets
`status`, `currentPeriodEnd` and `userId`. -/
def activatedPatch (sub : SubEntity) (userId : String) (r : SubRecord) : SubRecord :=
  { r with status := some sub.status,
           currentPeriodEnd := sub.current_end * 1000,
           userId := some userId }

/-- The `create` part of the charged branch's `upsert`. -/
def chargedCreateRow (sub : SubEntity) (userId : String) : SubRecord :=
  { userId := some userId,
    razorpaySubscriptionId := sub.id,
    razorpayPlanId := sub.plan_id,
    status := some sub.status,
    currentPeriodEnd := sub.current_end * 1000 }

/-- The `update` part of the charged branch's `upsert`: sets `status` and
`currentPeriodEnd` only (not `userId`). -/
def chargedPatch (sub : SubEntity) (r : SubRecord) : SubRecord :=
  { r with status := some sub.status,
           currentPeriodEnd := sub.current_end * 1000 }

/-- The terminal branch's `update` data: sets `status` only. -/
def terminalPatch (sub : SubEntity) (r : SubRecord) : SubRecord :=
  { r with status := some sub.status }

/-- Outcome of the webhook handler's `try` block around event handling:
`ok` carries the store after the handled (or unhandled-but-acknowledged)
event; `error` carries the thrown message. -/
def applyEvent (p : WebhookPayload) (dbFail : Bool) (store : List SubRecord) :
    Except String (List SubRecord) :=
  if p.event = "subscription.activated" then
    match p.subscription with
    | none => .error "Missing subscription data for activation"
    | some sub =>
      match sub.notes_userId with
      | some (NoteVal.str userId) =>
        if userId = "" then
          .error "User ID not found or invalid in subscription notes"
        else if dbFail then
          .error "Database error during subscription activation"
        else
          match findByExternalId store sub.id with
          | none => .ok (store ++ [activatedCreateRow sub userId])
          | some _ => .ok (updateRecord store sub.id (activatedPatch sub userId))
      | _ => .error "User ID not found or invalid in subscription notes"
  else if p.event = "subscription.charged" then
    match p.subscription with
    | none => .error "Missing subscription data for charged event"
    | some sub =>
      match sub.notes_userId with
      | some (NoteVal.str userId) =>
        if userId = "" then
          .error "User ID not found or invalid in subscription notes during charged event"
        else if dbFail then
          .error "Database error during charged upsert"
        else
          match findByExternalId store sub.id with
          | some _ => .ok (updateRecord store sub.id (chargedPatch sub))
          | none => .ok (store ++ [chargedCreateRow sub userId])
      | _ =>
        .error "User ID not found or invalid in subscription notes during charged event"
  else if p.event = "subscription.halted" ∨ p.event = "subscription.cancelled" ∨
          p.event = "subscription.completed" ∨ p.event = "subscription.expired" then
    match p.subscription with
    | none => .error "Missing subscription data for terminal event"
    | some sub =>
      if dbFail then
        .error "Database error during terminal update"
      else
        match findByExternalId store sub.id with
        | none => .error "Record to update not found"
        | some _ => .ok (updateRecord store sub.id (terminalPatch sub))
  else
    .ok store

/-- Steps 3 and 4 of the webhook POST: handle the classified event inside a
`try`; acknowledge with 200 on success (including unhandled event types),
return 500 from the `catch` on any thrown error.  A throw happens before or
instead of a successful store write, so the store is unchanged on the error
path. -/
def handleWebhookEvent (p : WebhookPayload) (dbFail : Bool) (store : List SubRecord) :
    Nat × List SubRecord :=
  match applyEvent p dbFail store with
  | .ok s2 => (200, s2)
  | .error _ => (500, store)

/-- The full webhook POST: missing secret gives 500; a signature header not
equal to the HMAC-SHA256 hex digest of the raw body gives 403; an
unparseable body gives 400; otherwise the event is handled. -/
def webhookPOST (hmac : String → String → String)
    (parseJson : String → Option WebhookPayload)
    (webhookSecret : Option String) (bodyText : String) (signature : Option String)
    (dbFail : Bool) (store : List SubRecord) : Nat × List SubRecord :=
  match webhookSecret with
  | none => (500, store)
  | some secret =>
    if signature = some (hmac secret bodyText) then
      match parseJson bodyText with
      | none => (400, store)
      | some p => handleWebhookEvent p dbFail store
    else
      (403, store)

/-- The verify-payment request body after zod schema validation. -/
structure VerifyReq where
  razorpay_order_id : Option String
  razorpay_payment_id : String
  razorpay_subscription_id : Option String
  razorpay_signature : String
deriving DecidableEq, Repr

/-- The verify-payment response: its status code, and whether the body is
the success JSON carrying `verified` set to true. -/
structure VerifyResp where
  status : Nat
  verified : Bool
deriving DecidableEq, Repr

/-- The string the verify-payment route signs, following the ternary's
JavaScript truthiness: `paymentId|subscriptionId` when the subscription id
is present and non-empty (the empty string is falsy), else
`orderId|paymentId` — where a missing order id interpolates as the string
"undefined" and an empty one as "", exactly as the template literal
does. -/
def bodyToSign (req : VerifyReq) : String :=
  match req.razorpay_subscription_id with
  | some sid =>
    if sid = "" then
      (match req.razorpay_order_id with
       | some oid => oid
       | none => "undefined") ++ "|" ++ req.razorpay_payment_id
    else
      req.razorpay_payment_id ++ "|" ++ sid
  | none =>
    (match req.razorpay_order_id with
     | some oid => oid
     | none => "undefined") ++ "|" ++ req.razorpay_payment_id

/-- The minimal preliminary record the verify-payment route creates when no
record exists for a verified subscription id: owned by the authenticated
caller, status "created", provisional `currentPeriodEnd` 24 hours (86400000
ms) from now. -/
def preliminaryRow (userId sid : String) (nowMs : Int) : SubRecord :=
  { userId := some userId,
    razorpaySubscriptionId := sid,
    razorpayPlanId := none,
    status := some "created",
    currentPeriodEnd := nowMs + 86400000 }

/-- The verify-payment POST for an authenticated caller `userId` on an
already schema-validated body.  Missing key secret gives 500; both ids
falsy (absent or the empty string, per `!sid && !oid`) gives 400 before any
digest comparison; a digest mismatch gives 400; on a match, when the
subscription id is truthy (present and non-empty, per the
`if (razorpay_subscription_id)` guard) the route reads the store and either
leaves it alone (record owned by caller, or owned by someone else — the
mismatch is only logged) or creates a preliminary record with status
"created" and a provisional period end 24h from now.  A store failure in
that block is caught, logged and swallowed: the route still answers 200
with `verified` true. -/
def verifyPaymentPOST (hmac : String → String → String) (keySecret : Option String)
    (userId : String) (req : VerifyReq) (nowMs : Int) (dbFail : Bool)
    (store : List SubRecord) : VerifyResp × List SubRecord :=
  match keySecret with
  | none => ({ status := 500, verified := false }, store)
  | some secret =>
    if (req.razorpay_subscription_id = none ∨ req.razorpay_subscription_id = some "") ∧
       (req.razorpay_order_id = none ∨ req.razorpay_order_id = some "") then
      ({ status := 400, verified := false }, store)
    else
      if hmac secret (bodyToSign req) = req.razorpay_signature then
        match req.razorpay_subscription_id with
        | some sid =>
          if sid = "" then
            ({ status := 200, verified := true }, store)
          else if dbFail then
            ({ status := 200, verified := true }, store)
          else
            match findByExternalId store sid with
            | some sub =>
              if sub.userId = some userId then
                ({ status := 200, verified := true }, store)
              else
                ({ status := 200, verified := true }, store)
            | none =>
              ({ status := 200, verified := true },
               store ++ [preliminaryRow userId sid nowMs])
        | none => ({ status := 200, verified := true }, store)
      else
        ({ status := 400, verified := false }, store)

/-- A row of the `ChatbotInteraction` table: keyed by the composite unique
index `(day, userId)`, with a non-negative interaction count. -/
structure ChatCounter where
  day : String
  userId : String
  count : Nat
deriving DecidableEq, Repr

/-- `db.chatbotInteraction.findUnique` on the composite key. -/
def findCounter : List ChatCounter → String → String → Option ChatCounter
  | [], _, _ => none
  | c :: cs, d, u =>
    if c.day = d ∧ c.userId = u then some c else findCounter cs d u

/-- `db.chatbotInteraction.update` with `count: increment 1` on the
composite key: bump the matching rows; when no row matches, the thrown
not-found error is caught and logged by the route, so the store is simply
unchanged. -/
def incrementCounter : List ChatCounter → String → String → List ChatCounter
  | [], _, _ => []
  | c :: cs, d, u =>
    (if c.day = d ∧ c.userId = u then { c with count := c.count + 1 } else c)
      :: incrementCounter cs d u

/-- The chat route's quota admission check (lines before the streaming
call): subscribed users skip the gate; otherwise today's counter is looked
up (lazily created at count 0) and a count at or above the daily limit
short-circuits with a 429 response.  Result: the early-return status
(`some 429` on denial, `none` when the request is admitted) and the store
after the lazy creation. -/
def chatAdmit (isSubscribed : Bool) (userId today : String) (limit : Nat)
    (store : List ChatCounter) : Option Nat × List ChatCounter :=
  if isSubscribed then
    (none, store)
  else
    match findCounter store today userId with
    | some c => (if limit ≤ c.count then some 429 else none, store)
    | none =>
      (if limit ≤ 0 then some 429 else none,
       store ++ [{ day := today, userId := userId, count := 0 }])

/-- The chat route's `onFinish` callback: on successful completion of the
streamed response, increment today's counter — but only for non-subscribed
users. -/
def chatRecordCompletion (isSubscribed : Bool) (userId today : String)
    (store : List ChatCounter) : List ChatCounter :=
  if isSubscribed then store else incrementCounter store today userId

/-- One sequential request round: the admission check, then — only when
admitted — the completion callback's increment. -/
def chatRound (isSubscribed : Bool) (userId today : String) (limit : Nat)
    (store : List ChatCounter) : List ChatCounter :=
  match chatAdmit isSubscribed userId today limit store with
  | (none, s2) => chatRecordCompletion isSubscribed userId today s2
  | (some _, s2) => s2

/-- `k` sequential rounds, each admitted request completing and
incrementing before the next check. -/
def chatRunRounds (isSubscribed : Bool) (userId today : String) (limit : Nat) :
    Nat → List ChatCounter → List ChatCounter
  | 0, store => store
  | k + 1, store =>
    chatRound isSubscribed userId today limit
      (chatRunRounds isSubscribed userId today limit k store)

/-- The counter value visible before an admission check: the stored count,
or 0 when no row exists yet for `(day, userId)`. -/
def chatPreCount (store : List ChatCounter) (today userId : String) : Nat :=
  match findCounter store today userId with
  | some c => c.count
  | none => 0

/-! ### Store lemmas -/

theorem findByExternalId_eq_none (s : List SubRecord) (k : String)
    (h : findByExternalId s k = none) :
    ∀ r ∈ s, r.razorpaySubscriptionId ≠ k := by
  induction s with
  | nil => intro r hr; simp at hr
  | cons a s ih =>
    intro r hr
    rw [findByExternalId] at h
    split at h
    · exact absurd h (by simp)
    · rcases List.mem_cons.mp hr with rfl | hr2
      · assumption
      · exact ih h r hr2

theorem findByExternalId_append_single (s : List SubRecord) (r : SubRecord) (k : String)
    (h : findByExternalId s k = none) (hr : r.razorpaySubscriptionId = k) :
    findByExternalId (s ++ [r]) k = some r := by
  induction s with
  | nil => simp [findByExternalId, hr]
  | cons a s ih =>
    rw [findByExternalId] at h
    split at h
    · exact absurd h (by simp)
    · simp [findByExternalId, *]

theorem updateRecord_append (s t : List SubRecord) (k : String) (f : SubRecord → SubRecord) :
    updateRecord (s ++ t) k f = updateRecord s k f ++ updateRecord t k f := by
  induction s with
  | nil => simp [updateRecord]
  | cons a s ih => simp [updateRecord, ih]

theorem updateRecord_of_no_key (s : List SubRecord) (k : String) (f : SubRecord → SubRecord)
    (h : ∀ r ∈ s, r.razorpaySubscriptionId ≠ k) :
    updateRecord s k f = s := by
  induction s with
  | nil => rfl
  | cons a s ih =>
    rw [updateRecord, if_neg (h a (by simp)), ih]
    intro r hr
    exact h r (List.mem_cons_of_mem a hr)

theorem findByExternalId_updateRecord (s : List SubRecord) (k : String)
    (f : SubRecord → SubRecord)
    (hf : ∀ r, (f r).razorpaySubscriptionId = r.razorpaySubscriptionId) :
    findByExternalId (updateRecord s k f) k = (findByExternalId s k).map f := by
  induction s with
  | nil => rfl
  | cons a s ih =>
    by_cases hk : a.razorpaySubscriptionId = k
    · rw [updateRecord, if_pos hk, findByExternalId, if_pos (by rw [hf a, hk]),
          findByExternalId, if_pos hk]
      rfl
    · rw [updateRecord, if_neg hk, findByExternalId, if_neg hk, findByExternalId,
          if_neg hk, ih]

theorem updateRecord_updateRecord (s : List SubRecord) (k : String)
    (f : SubRecord → SubRecord) (hff : ∀ r, f (f r) = f r)
    (hf : ∀ r, (f r).razorpaySubscriptionId = r.razorpaySubscriptionId) :
    updateRecord (updateRecord s k f) k f = updateRecord s k f := by
  induction s with
  | nil => rfl
  | cons a s ih =>
    by_cases hk : a.razorpaySubscriptionId = k
    · rw [updateRecord, if_pos hk, updateRecord, if_pos (by rw [hf a, hk]), hff, ih]
    · rw [updateRecord, if_neg hk, updateRecord, if_neg hk, ih]

theorem findCounter_key (s : List ChatCounter) (d u : String) (c : ChatCounter)
    (h : findCounter s d u = some c) : c.day = d ∧ c.userId = u := by
  induction s with
  | nil => exact absurd h (by simp [findCounter])
  | cons a s ih =>
    rw [findCounter] at h
    split at h
    · cases h; assumption
    · exact ih h

theorem findCounter_append_single (s : List ChatCounter) (d u : String) (c : ChatCounter)
    (h : findCounter s d u = none) (hc : c.day = d ∧ c.userId = u) :
    findCounter (s ++ [c]) d u = some c := by
  induction s with
  | nil => simp [findCounter, hc]
  | cons a s ih =>
    rw [findCounter] at h
    split at h
    · exact absurd h (by simp)
    · simp [findCounter, *]

theorem findCounter_incrementCounter (s : List ChatCounter) (d u : String) :
    findCounter (incrementCounter s d u) d u =
      (findCounter s d u).map (fun c => { c with count := c.count + 1 }) := by
  induction s with
  | nil => rfl
  | cons a s ih =>
    by_cases hk : a.day = d ∧ a.userId = u
    · rw [incrementCounter, if_pos hk, findCounter, if_pos (by simpa using hk),
          findCounter, if_pos hk]
      rfl
    · rw [incrementCounter, if_neg hk, findCounter, if_neg hk, findCounter,
          if_neg hk, ih]

/-! ### Claim theorems -/

/-- C2: for every store state and every terminal webhook event
(`subscription.halted` / `cancelled` / `completed` / `expired`) whose
subscription id has no existing record, the handler answers 500 (the thrown
not-found error is surfaced by the catch, not swallowed) and the store
still contains no record for that id afterwards. -/
theorem terminal_event_unknown_subscription_errors (store : List SubRecord)
    (p : WebhookPayload) (sub : SubEntity)
    (he : p.event = "subscription.halted" ∨ p.event = "subscription.cancelled" ∨
          p.event = "subscription.completed" ∨ p.event = "subscription.expired")
    (hs : p.subscription = some sub)
    (hnone : findByExternalId store sub.id = none) :
    handleWebhookEvent p false store = (500, store) ∧
    findByExternalId (handleWebhookEvent p false store).2 sub.id = none := by
  have h : handleWebhookEvent p false store = (500, store) := by
    rcases he with he | he | he | he <;>
      simp [handleWebhookEvent, applyEvent, he, hs, hnone]
  exact ⟨h, by rw [h]; exact hnone⟩

/-- Witness for C2 at a concrete cancelled event on the empty store. -/
theorem terminal_event_unknown_subscription_errors_witness :
    findByExternalId [] "sub_1" = none ∧
    (handleWebhookEvent
        { event := "subscription.cancelled",
          subscription := some { id := "sub_1", plan_id := some "plan_1",
                                 status := "cancelled", current_end := 100,
                                 notes_userId := some (NoteVal.str "user_1") } }
        false [] = (500, []) ∧
      findByExternalId
        (handleWebhookEvent
          { event := "subscription.cancelled",
            subscription := some { id := "sub_1", plan_id := some "plan_1",
                                   status := "cancelled", current_end := 100,
                                   notes_userId := some (NoteVal.str "user_1") } }
          false []).2 "sub_1" = none) :=
  ⟨rfl,
   terminal_event_unknown_subscription_errors [] _ _ (Or.inr (Or.inl rfl)) rfl rfl⟩

/-- C3: applying the same `subscription.activated` webhook event (carrying
a valid userId in its notes — a string, and non-empty, since the guard's
`!userId` falsiness check rejects the empty string) twice yields the same
store as applying it once — in particular the record's status,
currentPeriodEnd and userId are unchanged by the second application — and
both applications answer 200. -/
theorem activated_idempotent (store : List SubRecord) (p : WebhookPayload)
    (sub : SubEntity) (u : String)
    (he : p.event = "subscription.activated") (hs : p.subscription = some sub)
    (hu : sub.notes_userId = some (NoteVal.str u)) (hne : u ≠ "") :
    (handleWebhookEvent p false store).1 = 200 ∧
    (handleWebhookEvent p false (handleWebhookEvent p false store).2).1 = 200 ∧
    (handleWebhookEvent p false (handleWebhookEvent p false store).2).2 =
      (handleWebhookEvent p false store).2 := by
  cases hfind : findByExternalId store sub.id with
  | none =>
    have h1 : handleWebhookEvent p false store =
        (200, store ++ [activatedCreateRow sub u]) := by
      simp [handleWebhookEvent, applyEvent, he, hs, hu, hne, hfind]
    have h2 : findByExternalId (store ++ [activatedCreateRow sub u]) sub.id =
        some (activatedCreateRow sub u) :=
      findByExternalId_append_single store _ sub.id hfind rfl
    have h3 : handleWebhookEvent p false (store ++ [activatedCreateRow sub u]) =
        (200, updateRecord (store ++ [activatedCreateRow sub u]) sub.id
                (activatedPatch sub u)) := by
      simp [handleWebhookEvent, applyEvent, he, hs, hu, hne, h2]
    have h4 : updateRecord (store ++ [activatedCreateRow sub u]) sub.id
        (activatedPatch sub u) = store ++ [activatedCreateRow sub u] := by
      rw [updateRecord_append,
          updateRecord_of_no_key store _ _ (findByExternalId_eq_none store sub.id hfind)]
      simp [updateRecord, activatedPatch, activatedCreateRow]
    rw [h1]
    simp [h3, h4]
  | some r0 =>
    have h1 : handleWebhookEvent p false store =
        (200, updateRecord store sub.id (activatedPatch sub u)) := by
      simp [handleWebhookEvent, applyEvent, he, hs, hu, hne, hfind]
    have h2 : findByExternalId (updateRecord store sub.id (activatedPatch sub u)) sub.id =
        some (activatedPatch sub u r0) := by
      rw [findByExternalId_updateRecord store sub.id (activatedPatch sub u) (fun r => rfl),
          hfind]
      rfl
    have h3 : handleWebhookEvent p false (updateRecord store sub.id (activatedPatch sub u)) =
        (200, updateRecord (updateRecord store sub.id (activatedPatch sub u)) sub.id
                (activatedPatch sub u)) := by
      simp [handleWebhookEvent, applyEvent, he, hs, hu, hne, h2]
    have h4 := updateRecord_updateRecord store sub.id (activatedPatch sub u)
      (fun r => rfl) (fun r => rfl)
    rw [h1]
    simp [h3, h4]

/-- Witness for C3 at a concrete activated event on a one-record store. -/
theorem activated_idempotent_witness :
    (handleWebhookEvent
        { event := "subscription.activated",
          subscription := some { id := "sub_1", plan_id := some "plan_1",
                                 status := "active", current_end := 100,
                                 notes_userId := some (NoteVal.str "user_1") } }
        false
        [{ userId := some "user_0", razorpaySubscriptionId := "sub_1",
           razorpayPlanId := none, status := some "created",
           currentPeriodEnd := 7 }]).1 = 200 ∧
    (handleWebhookEvent
        { event := "subscription.activated",
          subscription := some { id := "sub_1", plan_id := some "plan_1",
                                 status := "active", current_end := 100,
                                 notes_userId := some (NoteVal.str "user_1") } }
        false
        (handleWebhookEvent
          { event := "subscription.activated",
            subscription := some { id := "sub_1", plan_id := some "plan_1",
                                   status := "active", current_end := 100,
                                   notes_userId := some (NoteVal.str "user_1") } }
          false
          [{ userId := some "user_0", razorpaySubscriptionId := "sub_1",
             razorpayPlanId := none, status := some "created",
             currentPeriodEnd := 7 }]).2).1 = 200 ∧
    (handleWebhookEvent
        { event := "subscription.activated",
          subscription := some { id := "sub_1", plan_id := some "plan_1",
                                 status := "active", current_end := 100,
                                 notes_userId := some (NoteVal.str "user_1") } }
        false
        (handleWebhookEvent
          { event := "subscription.activated",
            subscription := some { id := "sub_1", plan_id := some "plan_1",
                                   status := "active", current_end := 100,
                                   notes_userId := some (NoteVal.str "user_1") } }
          false
          [{ userId := some "user_0", razorpaySubscriptionId := "sub_1",
             razorpayPlanId := none, status := some "created",
             currentPeriodEnd := 7 }]).2).2 =
      (handleWebhookEvent
          { event := "subscription.activated",
            subscription := some { id := "sub_1", plan_id := some "plan_1",
                                   status := "active", current_end := 100,
                                   notes_userId := some (NoteVal.str "user_1") } }
          false
          [{ userId := some "user_0", razorpaySubscriptionId := "sub_1",
             razorpayPlanId := none, status := some "created",
             currentPeriodEnd := 7 }]).2 :=
  activated_idempotent _ _ _ "user_1" rfl rfl rfl (by decide)

/-- C10: a `subscription.activated` or `subscription.charged` webhook event
that passes the signature gate but whose subscription entity's notes lack a
string userId makes the handler answer 500 and perform no store write, even
when a record for the subscription id already exists: the userId guard
throws before any store access, and the catch returns 500. -/
theorem webhook_missing_userId_errors_no_write (hmac : String → String → String)
    (parseJson : String → Option WebhookPayload) (secret bodyText : String)
    (p : WebhookPayload) (sub : SubEntity) (dbFail : Bool) (store : List SubRecord)
    (hparse : parseJson bodyText = some p)
    (he : p.event = "subscription.activated" ∨ p.event = "subscription.charged")
    (hs : p.subscription = some sub)
    (hu : ∀ v, sub.notes_userId ≠ some (NoteVal.str v)) :
    webhookPOST hmac parseJson (some secret) bodyText (some (hmac secret bodyText))
      dbFail store = (500, store) := by
  have hwp : webhookPOST hmac parseJson (some secret) bodyText
      (some (hmac secret bodyText)) dbFail store = handleWebhookEvent p dbFail store := by
    simp [webhookPOST, hparse]
  rw [hwp]
  rcases he with he | he <;>
  · rcases hv : sub.notes_userId with _ | v
    · simp [handleWebhookEvent, applyEvent, he, hs, hv]
    · cases v with
      | str s => exact absurd hv (hu s)
      | nonString => simp [handleWebhookEvent, applyEvent, he, hs, hv]

/-- Witness for C10 at a concrete charged event whose notes carry a
non-string userId, on a store that already holds a record for the id. -/
theorem webhook_missing_userId_errors_no_write_witness :
    (fun _ => some
      { event := "subscription.charged",
        subscription := some { id := "sub_1", plan_id := some "plan_1",
                               status := "active", current_end := 100,
                               notes_userId := some NoteVal.nonString } })
      "body" = some
      ({ event := "subscription.charged",
         subscription := some { id := "sub_1", plan_id := some "plan_1",
                                status := "active", current_end := 100,
                                notes_userId := some NoteVal.nonString } } :
        WebhookPayload) ∧
    webhookPOST (fun _ _ => "digest")
      (fun _ => some
        { event := "subscription.charged",
          subscription := some { id := "sub_1", plan_id := some "plan_1",
                                 status := "active", current_end := 100,
                                 notes_userId := some NoteVal.nonString } })
      (some "secret") "body" (some ((fun _ _ => "digest") "secret" "body")) false
      [{ userId := some "user_0", razorpaySubscriptionId := "sub_1",
         razorpayPlanId := none, status := some "created",
         currentPeriodEnd := 7 }] =
      (500,
       [{ userId := some "user_0", razorpaySubscriptionId := "sub_1",
          razorpayPlanId := none, status := some "created",
          currentPeriodEnd := 7 }]) :=
  ⟨rfl,
   webhook_missing_userId_errors_no_write _ _ "secret" "body" _ _ false _ rfl
     (Or.inr rfl) rfl (by intro v h; cases h)⟩

/-- C1 counterexample: on the empty store, a `subscription.charged` event
for unseen id "sub_1" with `current_end` 200 creates the record with
`currentPeriodEnd` 200000 ms; a later `subscription.activated` for the same
id with the earlier `current_end` 100 then leaves the stored
`currentPeriodEnd` at 100000 ms — strictly below the later (charged)
period-end value, so the claimed non-regression fails at this input. -/
theorem charged_then_earlier_activated_regresses :
    (findByExternalId
        (handleWebhookEvent
          { event := "subscription.activated",
            subscription := some { id := "sub_1", plan_id := some "plan_1",
                                   status := "active", current_end := 100,
                                   notes_userId := some (NoteVal.str "user_1") } }
          false
          (handleWebhookEvent
            { event := "subscription.charged",
              subscription := some { id := "sub_1", plan_id := some "plan_1",
                                     status := "active", current_end := 200,
                                     notes_userId := some (NoteVal.str "user_1") } }
            false []).2).2
        "sub_1").map SubRecord.currentPeriodEnd = some 100000 ∧
    (100000 : Int) < 200000 := by
  exact ⟨rfl, by decide⟩

/-- C1 (amended): processing `subscription.charged` for a never-before-seen
subscription id and then a `subscription.activated` for the same id whose
`current_end` is strictly earlier — both events carrying valid (non-empty
string) userIds in their notes — raises no error (both applications answer
200), but the stored `currentPeriodEnd` is overwritten with the activated
event's period end, strictly below the charged period-end value — the
update branch does not keep the maximum. -/
theorem charged_then_earlier_activated_sets_activated_end
    (store : List SubRecord) (pc pa : WebhookPayload) (subc suba : SubEntity)
    (uc ua : String)
    (hec : pc.event = "subscription.charged") (hsc : pc.subscription = some subc)
    (huc : subc.notes_userId = some (NoteVal.str uc)) (hucne : uc ≠ "")
    (hea : pa.event = "subscription.activated") (hsa : pa.subscription = some suba)
    (hua : suba.notes_userId = some (NoteVal.str ua)) (huane : ua ≠ "")
    (hid : suba.id = subc.id)
    (hfresh : findByExternalId store subc.id = none)
    (hlt : suba.current_end < subc.current_end) :
    (handleWebhookEvent pc false store).1 = 200 ∧
    (handleWebhookEvent pa false (handleWebhookEvent pc false store).2).1 = 200 ∧
    (findByExternalId
        (handleWebhookEvent pa false (handleWebhookEvent pc false store).2).2
        subc.id).map SubRecord.currentPeriodEnd = some (suba.current_end * 1000) ∧
    suba.current_end * 1000 < subc.current_end * 1000 := by
  have h1 : handleWebhookEvent pc false store =
      (200, store ++ [chargedCreateRow subc uc]) := by
    simp [handleWebhookEvent, applyEvent, hec, hsc, huc, hucne, hfresh]
  have h2 : findByExternalId (store ++ [chargedCreateRow subc uc]) suba.id =
      some (chargedCreateRow subc uc) := by
    rw [hid]
    exact findByExternalId_append_single store _ subc.id hfresh rfl
  have h3 : handleWebhookEvent pa false (store ++ [chargedCreateRow subc uc]) =
      (200, updateRecord (store ++ [chargedCreateRow subc uc]) suba.id
              (activatedPatch suba ua)) := by
    simp [handleWebhookEvent, applyEvent, hea, hsa, hua, huane, h2]
  have h4 : findByExternalId
      (updateRecord (store ++ [chargedCreateRow subc uc]) suba.id
        (activatedPatch suba ua)) subc.id =
      some (activatedPatch suba ua (chargedCreateRow subc uc)) := by
    rw [← hid,
        findByExternalId_updateRecord (store ++ [chargedCreateRow subc uc]) suba.id
          (activatedPatch suba ua) (fun r => rfl),
        h2]
    rfl
  refine ⟨by rw [h1], by rw [h1]; rw [h3], ?_, by omega⟩
  rw [h1]
  show (findByExternalId (handleWebhookEvent pa false (store ++ [chargedCreateRow subc uc])).2
      subc.id).map SubRecord.currentPeriodEnd = _
  rw [h3]
  show (findByExternalId (updateRecord (store ++ [chargedCreateRow subc uc]) suba.id
      (activatedPatch suba ua)) subc.id).map SubRecord.currentPeriodEnd = _
  rw [h4]
  rfl

/-- Witness for C1's amended theorem at the counterexample's inputs. -/
theorem charged_then_earlier_activated_sets_activated_end_witness :
    (handleWebhookEvent
        { event := "subscription.charged",
          subscription := some { id := "sub_1", plan_id := some "plan_1",
                                 status := "active", current_end := 200,
                                 notes_userId := some (NoteVal.str "user_1") } }
        false []).1 = 200 ∧
    (handleWebhookEvent
        { event := "subscription.activated",
          subscription := some { id := "sub_1", plan_id := some "plan_1",
                                 status := "active", current_end := 100,
                                 notes_userId := some (NoteVal.str "user_1") } }
        false
        (handleWebhookEvent
          { event := "subscription.charged",
            subscription := some { id := "sub_1", plan_id := some "plan_1",
                                   status := "active", current_end := 200,
                                   notes_userId := some (NoteVal.str "user_1") } }
          false []).2).1 = 200 ∧
    (findByExternalId
        (handleWebhookEvent
          { event := "subscription.activated",
            subscription := some { id := "sub_1", plan_id := some "plan_1",
                                   status := "active", current_end := 100,
                                   notes_userId := some (NoteVal.str "user_1") } }
          false
          (handleWebhookEvent
            { event := "subscription.charged",
              subscription := some { id := "sub_1", plan_id := some "plan_1",
                                     status := "active", current_end := 200,
                                     notes_userId := some (NoteVal.str "user_1") } }
            false []).2).2
        "sub_1").map SubRecord.currentPeriodEnd = some (100 * 1000) ∧
    (100 : Int) * 1000 < 200 * 1000 :=
  charged_then_earlier_activated_sets_activated_end []
    { event := "subscription.charged",
      subscription := some { id := "sub_1", plan_id := some "plan_1",
                             status := "active", current_end := 200,
                             notes_userId := some (NoteVal.str "user_1") } }
    { event := "subscription.activated",
      subscription := some { id := "sub_1", plan_id := some "plan_1",
                             status := "active", current_end := 100,
                             notes_userId := some (NoteVal.str "user_1") } }
    { id := "sub_1", plan_id := some "plan_1", status := "active",
      current_end := 200, notes_userId := some (NoteVal.str "user_1") }
    { id := "sub_1", plan_id := some "plan_1", status := "active",
      current_end := 100, notes_userId := some (NoteVal.str "user_1") }
    "user_1" "user_1" rfl rfl rfl (by decide) rfl rfl rfl (by decide) rfl rfl
    (by decide)

/-- C6: a verify-payment request (with the key secret configured) whose
provided signature differs from the HMAC-SHA256 digest of the canonical
string answers 400 with no `verified` success flag, and the subscription
store is left completely unchanged — the store is only touched inside the
digest-match branch. -/
theorem signature_mismatch_rejected_no_write (hmac : String → String → String)
    (secret userId : String) (req : VerifyReq) (nowMs : Int) (dbFail : Bool)
    (store : List SubRecord)
    (hsig : hmac secret (bodyToSign req) ≠ req.razorpay_signature) :
    verifyPaymentPOST hmac (some secret) userId req nowMs dbFail store =
      ({ status := 400, verified := false }, store) := by
  by_cases hids :
      (req.razorpay_subscription_id = none ∨ req.razorpay_subscription_id = some "") ∧
      (req.razorpay_order_id = none ∨ req.razorpay_order_id = some "")
  · simp [verifyPaymentPOST, hids]
  · simp [verifyPaymentPOST, hids, hsig]

/-- Witness for C6 at a concrete request whose signature is not the
digest. -/
theorem signature_mismatch_rejected_no_write_witness :
    (fun _ _ => "digest") "secret" (bodyToSign
      { razorpay_order_id := none, razorpay_payment_id := "pay_1",
        razorpay_subscription_id := some "sub_1",
        razorpay_signature := "tampered" }) ≠ "tampered" ∧
    verifyPaymentPOST (fun _ _ => "digest") (some "secret") "user_1"
      { razorpay_order_id := none, razorpay_payment_id := "pay_1",
        razorpay_subscription_id := some "sub_1",
        razorpay_signature := "tampered" } 0 false
      [{ userId := some "user_0", razorpaySubscriptionId := "sub_1",
         razorpayPlanId := none, status := some "created",
         currentPeriodEnd := 7 }] =
      ({ status := 400, verified := false },
       [{ userId := some "user_0", razorpaySubscriptionId := "sub_1",
          razorpayPlanId := none, status := some "created",
          currentPeriodEnd := 7 }]) :=
  ⟨by decide,
   signature_mismatch_rejected_no_write _ "secret" "user_1" _ 0 false _ (by decide)⟩

/-- C8: a verify-payment request with a valid signature whose subscription
id (present and non-empty — the empty string is falsy and never reaches the
store block) matches an existing record owned by a different userId than
the authenticated caller still answers 200 with `verified` true, and the
store is returned entirely unchanged: no field of the record is modified
and no new record is created (the mismatch is only logged). -/
theorem ownership_mismatch_tolerated_untouched (hmac : String → String → String)
    (secret callerId sid : String) (req : VerifyReq) (nowMs : Int)
    (store : List SubRecord) (r : SubRecord)
    (hsid : req.razorpay_subscription_id = some sid) (hsidne : sid ≠ "")
    (hsig : hmac secret (bodyToSign req) = req.razorpay_signature)
    (hfind : findByExternalId store sid = some r)
    (hown : r.userId ≠ some callerId) :
    verifyPaymentPOST hmac (some secret) callerId req nowMs false store =
      ({ status := 200, verified := true }, store) := by
  simp [verifyPaymentPOST, hsid, hsidne, hsig, hfind, hown]

/-- Witness for C8 at a concrete record owned by a different user. -/
theorem ownership_mismatch_tolerated_untouched_witness :
    (some "user_0" : Option String) ≠ some "user_1" ∧
    verifyPaymentPOST (fun _ _ => "digest") (some "secret") "user_1"
      { razorpay_order_id := none, razorpay_payment_id := "pay_1",
        razorpay_subscription_id := some "sub_1",
        razorpay_signature := (fun _ _ => "digest") "secret" (bodyToSign
          { razorpay_order_id := none, razorpay_payment_id := "pay_1",
            razorpay_subscription_id := some "sub_1",
            razorpay_signature := "digest" }) } 0 false
      [{ userId := some "user_0", razorpaySubscriptionId := "sub_1",
         razorpayPlanId := none, status := some "created",
         currentPeriodEnd := 7 }] =
      ({ status := 200, verified := true },
       [{ userId := some "user_0", razorpaySubscriptionId := "sub_1",
          razorpayPlanId := none, status := some "created",
          currentPeriodEnd := 7 }]) :=
  ⟨by decide,
   ownership_mismatch_tolerated_untouched _ "secret" "user_1" "sub_1" _ 0 _ _
     rfl (by decide) rfl rfl (by decide)⟩

/-- C9: a verify-payment request that passed schema validation but carries
neither a subscription id nor an order id answers 400 and leaves the store
unchanged; the result is the same for every digest function and every
provided signature, so no signature comparison can have influenced it. -/
theorem missing_both_ids_validation_failure (hmac : String → String → String)
    (secret userId : String) (req : VerifyReq) (nowMs : Int) (dbFail : Bool)
    (store : List SubRecord)
    (hsub : req.razorpay_subscription_id = none)
    (hord : req.razorpay_order_id = none) :
    verifyPaymentPOST hmac (some secret) userId req nowMs dbFail store =
      ({ status := 400, verified := false }, store) := by
  simp [verifyPaymentPOST, hsub, hord]

/-- Witness for C9 at a concrete request with both ids absent. -/
theorem missing_both_ids_validation_failure_witness :
    ({ razorpay_order_id := none, razorpay_payment_id := "pay_1",
       razorpay_subscription_id := none,
       razorpay_signature := "sig" } : VerifyReq).razorpay_subscription_id = none ∧
    verifyPaymentPOST (fun _ _ => "digest") (some "secret") "user_1"
      { razorpay_order_id := none, razorpay_payment_id := "pay_1",
        razorpay_subscription_id := none, razorpay_signature := "sig" } 0 false
      [{ userId := some "user_0", razorpaySubscriptionId := "sub_1",
         razorpayPlanId := none, status := some "created",
         currentPeriodEnd := 7 }] =
      ({ status := 400, verified := false },
       [{ userId := some "user_0", razorpaySubscriptionId := "sub_1",
          razorpayPlanId := none, status := some "created",
          currentPeriodEnd := 7 }]) :=
  ⟨rfl,
   missing_both_ids_validation_failure _ "secret" "user_1" _ 0 false _ rfl rfl⟩

/-- After `k` sequential admitted-and-completed rounds (1 ≤ k ≤ limit)
starting from a store with no counter row for `(d, u)`, the counter for
`(d, u)` exists and holds exactly `k`. -/
theorem chatRunRounds_findCounter (u d : String) (limit : Nat)
    (store : List ChatCounter) (hfresh : findCounter store d u = none) :
    ∀ k, 1 ≤ k → k ≤ limit →
      findCounter (chatRunRounds false u d limit k store) d u =
        some { day := d, userId := u, count := k } := by
  intro k
  induction k with
  | zero => intro h1 _; omega
  | succ k ih =>
    intro _ hk
    by_cases hk0 : k = 0
    · subst hk0
      have hlim : ¬ limit ≤ 0 := by omega
      have hs1 : findCounter (store ++ [{ day := d, userId := u, count := 0 }]) d u =
          some { day := d, userId := u, count := 0 } :=
        findCounter_append_single store d u _ hfresh ⟨rfl, rfl⟩
      simp [chatRunRounds, chatRound, chatAdmit, hfresh, hlim, chatRecordCompletion,
            findCounter_incrementCounter, hs1]
    · have ihk := ih (by omega) (by omega)
      have hlim : ¬ limit ≤ k := by omega
      simp [chatRunRounds, chatRound, chatAdmit, ihk, hlim, chatRecordCompletion,
            findCounter_incrementCounter]

/-- C4: with daily limit `limit` and sequential rounds (each admitted
request completing and incrementing before the next check) on the same
calendar day, a non-subscribed user's admission checks 1 through `limit`
are admitted (no early return) and the check after `limit` completed rounds
short-circuits with the 429 response; a subscribed user's check is admitted
whatever the counter store holds. -/
theorem quota_boundary (u d : String) (limit k : Nat) (store s2 : List ChatCounter)
    (hfresh : findCounter store d u = none) (hk : k < limit) :
    (chatAdmit false u d limit (chatRunRounds false u d limit k store)).1 = none ∧
    (chatAdmit false u d limit (chatRunRounds false u d limit limit store)).1 =
      some 429 ∧
    (chatAdmit true u d limit s2).1 = none := by
  refine ⟨?_, ?_, rfl⟩
  · by_cases hk0 : k = 0
    · subst hk0
      have hlim : ¬ limit ≤ 0 := by omega
      simp [chatRunRounds, chatAdmit, hfresh, hlim]
    · have hrun := chatRunRounds_findCounter u d limit store hfresh k (by omega) (by omega)
      have hlim : ¬ limit ≤ k := by omega
      simp [chatAdmit, hrun, hlim]
  · by_cases hl0 : limit = 0
    · subst hl0
      simp [chatRunRounds, chatAdmit, hfresh]
    · have hrun := chatRunRounds_findCounter u d limit store hfresh limit (by omega) le_rfl
      simp [chatAdmit, hrun]

/-- Witness for C4 with limit 2 on the empty counter store: the 2nd check
(after one completed round) is admitted, the 3rd is denied with 429, and a
subscribed user's check on a store already holding a large count is
admitted. -/
theorem quota_boundary_witness :
    findCounter [] "day_1" "user_1" = none ∧
    ((chatAdmit false "user_1" "day_1" 2
        (chatRunRounds false "user_1" "day_1" 2 1 [])).1 = none ∧
      (chatAdmit false "user_1" "day_1" 2
        (chatRunRounds false "user_1" "day_1" 2 2 [])).1 = some 429 ∧
      (chatAdmit true "user_1" "day_1" 2
        [{ day := "day_1", userId := "user_1", count := 99 }]).1 = none) :=
  ⟨rfl, quota_boundary "user_1" "day_1" 2 1 []
    [{ day := "day_1", userId := "user_1", count := 99 }] rfl (by decide)⟩

/-- C5: for a non-subscribed user, an admission check alone leaves the
counter's count at its pre-admission value (0 when the row is lazily
created); one completion after it raises the count by exactly one, and a
second completion by exactly two — so zero completions leave the count at
its pre-admission value and no completion double-counts. -/
theorem completion_gated_increment (store : List ChatCounter) (u d : String)
    (limit : Nat) :
    findCounter ((chatAdmit false u d limit store).2) d u =
      some { day := d, userId := u, count := chatPreCount store d u } ∧
    findCounter (chatRecordCompletion false u d
        ((chatAdmit false u d limit store).2)) d u =
      some { day := d, userId := u, count := chatPreCount store d u + 1 } ∧
    findCounter (chatRecordCompletion false u d (chatRecordCompletion false u d
        ((chatAdmit false u d limit store).2))) d u =
      some { day := d, userId := u, count := chatPreCount store d u + 2 } := by
  cases hf : findCounter store d u with
  | none =>
    have hs1 : findCounter (store ++ [{ day := d, userId := u, count := 0 }]) d u =
        some { day := d, userId := u, count := 0 } :=
      findCounter_append_single store d u _ hf ⟨rfl, rfl⟩
    simp [chatAdmit, hf, chatPreCount, chatRecordCompletion,
          findCounter_incrementCounter, hs1]
  | some c =>
    obtain ⟨hd, hu2⟩ := findCounter_key store d u c hf
    cases c with
    | mk cd cu cc =>
      simp only [] at hd hu2
      subst hd
      subst hu2
      simp [chatAdmit, hf, chatPreCount, chatRecordCompletion,
            findCounter_incrementCounter]

/-- C7 counterexample: a verify-payment request with a valid signature for
an unseen subscription id whose preliminary-record creation fails in the
store answers 200 with `verified` true — not a 5xx server error — because
the route's catch logs and swallows the store failure. -/
theorem verify_store_failure_returns_200 :
    verifyPaymentPOST (fun _ _ => "digest") (some "secret") "user_1"
      { razorpay_order_id := none, razorpay_payment_id := "pay_1",
        razorpay_subscription_id := some "sub_1",
        razorpay_signature := "digest" } 0 true [] =
      ({ status := 200, verified := true }, []) := by
  decide

/-- C7 (amended): a store-write failure during reconciliation on the
webhook channel's activated, charged and terminal paths makes the request
answer 500 with the store unchanged; on the verification channel's
preliminary-record creation path (reached when the request carries a
non-empty subscription id), however, the failure is logged and swallowed
and the request still answers 200 with `verified` true. -/
theorem store_failure_propagation_amended
    (p : WebhookPayload) (sub : SubEntity) (u : String) (store : List SubRecord)
    (hmac : String → String → String) (secret callerId sid : String)
    (req : VerifyReq) (nowMs : Int)
    (hs : p.subscription = some sub) (hu : sub.notes_userId = some (NoteVal.str u))
    (hsid : req.razorpay_subscription_id = some sid) (hsidne : sid ≠ "")
    (hsig : hmac secret (bodyToSign req) = req.razorpay_signature) :
    (p.event = "subscription.activated" →
      handleWebhookEvent p true store = (500, store)) ∧
    (p.event = "subscription.charged" →
      handleWebhookEvent p true store = (500, store)) ∧
    ((p.event = "subscription.halted" ∨ p.event = "subscription.cancelled" ∨
      p.event = "subscription.completed" ∨ p.event = "subscription.expired") →
      handleWebhookEvent p true store = (500, store)) ∧
    verifyPaymentPOST hmac (some secret) callerId req nowMs true store =
      ({ status := 200, verified := true }, store) := by
  refine ⟨?_, ?_, ?_, ?_⟩
  · intro he
    by_cases hne : u = "" <;> simp [handleWebhookEvent, applyEvent, he, hs, hu, hne]
  · intro he
    by_cases hne : u = "" <;> simp [handleWebhookEvent, applyEvent, he, hs, hu, hne]
  · intro he
    rcases he with he | he | he | he <;>
      simp [handleWebhookEvent, applyEvent, he, hs]
  · simp [verifyPaymentPOST, hsid, hsidne, hsig]

/-- Witness for C7's amended theorem: a concrete activated event with the
store write failing answers 500, and the concrete verify-payment request
with the store write failing answers 200. -/
theorem store_failure_propagation_amended_witness :
    (({ event := "subscription.activated",
        subscription := some { id := "sub_1", plan_id := some "plan_1",
                               status := "active", current_end := 100,
                               notes_userId := some (NoteVal.str "user_1") } } :
        WebhookPayload).event = "subscription.activated" →
      handleWebhookEvent
        { event := "subscription.activated",
          subscription := some { id := "sub_1", plan_id := some "plan_1",
                                 status := "active", current_end := 100,
                                 notes_userId := some (NoteVal.str "user_1") } }
        true [] = (500, [])) ∧
    (({ event := "subscription.activated",
        subscription := some { id := "sub_1", plan_id := some "plan_1",
                               status := "active", current_end := 100,
                               notes_userId := some (NoteVal.str "user_1") } } :
        WebhookPayload).event = "subscription.charged" →
      handleWebhookEvent
        { event := "subscription.activated",
          subscription := some { id := "sub_1", plan_id := some "plan_1",
                                 status := "active", current_end := 100,
                                 notes_userId := some (NoteVal.str "user_1") } }
        true [] = (500, [])) ∧
    ((({ event := "subscription.activated",
         subscription := some { id := "sub_1", plan_id := some "plan_1",
                                status := "active", current_end := 100,
                                notes_userId := some (NoteVal.str "user_1") } } :
         WebhookPayload).event = "subscription.halted" ∨
      ({ event := "subscription.activated",
         subscription := some { id := "sub_1", plan_id := some "plan_1",
                                status := "active", current_end := 100,
                                notes_userId := some (NoteVal.str "user_1") } } :
         WebhookPayload).event = "subscription.cancelled" ∨
      ({ event := "subscription.activated",
         subscription := some { id := "sub_1", plan_id := some "plan_1",
                                status := "active", current_end := 100,
                                notes_userId := some (NoteVal.str "user_1") } } :
         WebhookPayload).event = "subscription.completed" ∨
      ({ event := "subscription.activated",
         subscription := some { id := "sub_1", plan_id := some "plan_1",
                                status := "active", current_end := 100,
                                notes_userId := some (NoteVal.str "user_1") } } :
         WebhookPayload).event = "subscription.expired") →
      handleWebhookEvent
        { event := "subscription.activated",
          subscription := some { id := "sub_1", plan_id := some "plan_1",
                                 status := "active", current_end := 100,
                                 notes_userId := some (NoteVal.str "user_1") } }
        true [] = (500, [])) ∧
    verifyPaymentPOST (fun _ _ => "digest") (some "secret") "user_1"
      { razorpay_order_id := none, razorpay_payment_id := "pay_1",
        razorpay_subscription_id := some "sub_1",
        razorpay_signature := "digest" } 0 true [] =
      ({ status := 200, verified := true }, []) :=
  store_failure_propagation_amended
    { event := "subscription.activated",
      subscription := some { id := "sub_1", plan_id := some "plan_1",
                             status := "active", current_end := 100,
                             notes_userId := some (NoteVal.str "user_1") } }
    { id := "sub_1", plan_id := some "plan_1", status := "active",
      current_end := 100, notes_userId := some (NoteVal.str "user_1") }
    "user_1" [] (fun _ _ => "digest") "secret" "user_1" "sub_1"
    { razorpay_order_id := none, razorpay_payment_id := "pay_1",
      razorpay_subscription_id := some "sub_1", razorpay_signature := "digest" }
    0 rfl rfl rfl (by decide) rfl

end VMail
